import Mathlib

/-!
Shallow embedding of the ranked matchmaking, rating and anti-cheat core of the
CricSaga bot (source file `bb.py`), together with proofs checking the
natural-language specification against it.

Conventions:
* Python machine integers are modelled as `Nat`/`Int`.
* Python float arithmetic on exactly representable values is modelled by `ℚ`
  (all float computations relevant to the claims below stay exact: the
  multipliers `1.0`, integer-valued products, and decimal thresholds).
* The one genuinely transcendental computation, `10 ** ((r2 - r1) / 400)` in
  `calculate_elo_change`, is modelled over `ℝ`; the claim about it only
  concerns equal ratings, where the float computation is exact as well.
* Python `int(x)` is truncation toward zero.
* Database rows fetched by the functions are passed as explicit arguments
  (`Option` for a fetch that may return no row).
-/

namespace CricSaga

/-- Python `int()` applied to an exact rational: truncation toward zero. -/
def truncToZero (q : ℚ) : ℤ := if 0 ≤ q then ⌊q⌋ else ⌈q⌉

/-- Python `int()` applied to a real value: truncation toward zero. -/
noncomputable def truncToZeroR (x : ℝ) : ℤ := if 0 ≤ x then ⌊x⌋ else ⌈x⌉

/-! ### Constants (bb.py lines 222-255) -/

def RANKED_RATING_RANGE : ℤ := 200

def SUSPICIOUS_OPPONENT_FREQUENCY : ℕ := 5

def SUSPICIOUS_OPPONENT_PERCENTAGE : ℚ := 30 / 100

def WIN_TRADING_CONSECUTIVE_THRESHOLD : ℕ := 3

def MIN_TRUST_SCORE : ℤ := 30

def SUSPEND_TRUST_SCORE : ℤ := 10

/-! ### Rank tier lookup (bb.py `get_rank_tier`, `get_rank_from_rating`) -/

/-- Embedding of `get_rank_tier` (bb.py lines 7619-7642). -/
def get_rank_tier (rating : ℤ) : String :=
  if rating < 200 then "🥉 Bronze I"
  else if rating < 400 then "🥉 Bronze II"
  else if rating < 600 then "🥉 Bronze III"
  else if rating < 800 then "🥈 Silver I"
  else if rating < 1000 then "🥈 Silver II"
  else if rating < 1200 then "🥈 Silver III"
  else if rating < 1400 then "🥇 Gold I"
  else if rating < 1600 then "🥇 Gold II"
  else if rating < 1800 then "🥇 Gold III"
  else if rating < 2000 then "💎 Platinum I"
  else if rating < 2200 then "💎 Platinum II"
  else if rating < 2400 then "💎 Platinum III"
  else if rating < 2600 then "💠 Diamond I"
  else if rating < 2800 then "💠 Diamond II"
  else if rating < 3000 then "💠 Diamond III"
  else if rating < 3300 then "⚜️ Master I"
  else if rating < 3600 then "⚜️ Master II"
  else if rating < 4000 then "⚜️ Master III"
  else if rating < 4400 then "👑 Grandmaster I"
  else if rating < 4800 then "👑 Grandmaster II"
  else if rating < 5200 then "👑 Grandmaster III"
  else "🔥 Immortal"

/-- Embedding of `get_rank_from_rating` (bb.py lines 7662-7688). -/
def get_rank_from_rating (rating : ℤ) : String :=
  if rating < 0 then "Unranked"
  else if rating < 200 then "Bronze I"
  else if rating < 400 then "Bronze II"
  else if rating < 600 then "Bronze III"
  else if rating < 800 then "Silver I"
  else if rating < 1000 then "Silver II"
  else if rating < 1200 then "Silver III"
  else if rating < 1400 then "Gold I"
  else if rating < 1600 then "Gold II"
  else if rating < 1800 then "Gold III"
  else if rating < 2000 then "Platinum I"
  else if rating < 2200 then "Platinum II"
  else if rating < 2400 then "Platinum III"
  else if rating < 2600 then "Diamond I"
  else if rating < 2800 then "Diamond II"
  else if rating < 3000 then "Diamond III"
  else if rating < 3300 then "Master I"
  else if rating < 3600 then "Master II"
  else if rating < 4000 then "Master III"
  else if rating < 4400 then "Grandmaster I"
  else if rating < 4800 then "Grandmaster II"
  else if rating < 5200 then "Grandmaster III"
  else if rating < 5600 then "Immortal I"
  else if rating < 6000 then "Immortal II"
  else "Immortal III"

/-- The 22 tier names `get_rank_tier` can produce, in ascending band order. -/
def rank_tier_names : List String :=
  ["🥉 Bronze I", "🥉 Bronze II", "🥉 Bronze III",
   "🥈 Silver I", "🥈 Silver II", "🥈 Silver III",
   "🥇 Gold I", "🥇 Gold II", "🥇 Gold III",
   "💎 Platinum I", "💎 Platinum II", "💎 Platinum III",
   "💠 Diamond I", "💠 Diamond II", "💠 Diamond III",
   "⚜️ Master I", "⚜️ Master II", "⚜️ Master III",
   "👑 Grandmaster I", "👑 Grandmaster II", "👑 Grandmaster III",
   "🔥 Immortal"]

/-- The 24 names `get_rank_from_rating` can produce, in ascending band order. -/
def rank_from_rating_names : List String :=
  ["Unranked",
   "Bronze I", "Bronze II", "Bronze III",
   "Silver I", "Silver II", "Silver III",
   "Gold I", "Gold II", "Gold III",
   "Platinum I", "Platinum II", "Platinum III",
   "Diamond I", "Diamond II", "Diamond III",
   "Master I", "Master II", "Master III",
   "Grandmaster I", "Grandmaster II", "Grandmaster III",
   "Immortal I", "Immortal II", "Immortal III"]

/-- Number of thresholds of `ts` that the rating has reached: the band index
selected by a rating ladder with ascending thresholds `ts`. -/
def ladder_index : List ℤ → ℤ → ℕ
  | [], _ => 0
  | t :: ts, r => if r < t then 0 else ladder_index ts r + 1

/-- The ascending rating thresholds of the `get_rank_tier` ladder. -/
def tier_thresholds : List ℤ :=
  [200, 400, 600, 800, 1000, 1200, 1400, 1600, 1800, 2000, 2200, 2400,
   2600, 2800, 3000, 3300, 3600, 4000, 4400, 4800, 5200]

/-- The ascending rating thresholds of the `get_rank_from_rating` ladder. -/
def rank_from_rating_thresholds : List ℤ :=
  [0, 200, 400, 600, 800, 1000, 1200, 1400, 1600, 1800, 2000, 2200, 2400,
   2600, 2800, 3000, 3300, 3600, 4000, 4400, 4800, 5200, 5600, 6000]

/-- Position of the band `get_rank_tier` selects. -/
def rank_tier_index (rating : ℤ) : ℕ := ladder_index tier_thresholds rating

/-- Position of the band `get_rank_from_rating` selects. -/
def rank_from_rating_index (rating : ℤ) : ℕ :=
  ladder_index rank_from_rating_thresholds rating

/-! ### RatingModel (bb.py `calculate_win_streak_bonus`, `calculate_elo_change`) -/

/-- ASCII lower-casing of one character, as Python `str.lower` acts on the
tier names used here. -/
def lowerChar (c : Char) : Char :=
  if 65 ≤ c.toNat ∧ c.toNat ≤ 90 then Char.ofNat (c.toNat + 32) else c

/-- The character list of `s.lower()`. -/
def lowerList (s : String) : List Char := s.toList.map lowerChar

/-- Lower-cased substring test, as Python `needle in haystack.lower()`. -/
def containsSub (hay needle : String) : Bool :=
  decide (needle.toList <:+: lowerList hay)

/-- Embedding of `calculate_win_streak_bonus` (bb.py lines 7114-7146). -/
def calculate_win_streak_bonus (current_streak : ℕ) (rank_tier : String)
    (is_winner : Bool) (total_ranked_matches : ℕ) : ℤ :=
  if !is_winner then 0
  else if total_ranked_matches < 5 then 0
  else if containsSub rank_tier "platinum" || containsSub rank_tier "diamond" ||
          containsSub rank_tier "ruby" || containsSub rank_tier "immortal" then 0
  else if 5 ≤ current_streak then 4
  else if 3 ≤ current_streak then 2
  else 0

/-- Embedding of `calculate_elo_change` (bb.py lines 7148-7186).  The float
computation `1 / (1 + 10 ** ((rating2 - rating1) / 400))` is modelled over the
reals; `winner` is 1 for a player-1 win, 2 for a player-2 win, 0 for a draw. -/
noncomputable def calculate_elo_change (rating1 rating2 : ℤ) (winner : ℕ)
    (k_factor : ℤ) : ℤ × ℤ :=
  let expected1 : ℝ := 1 / (1 + (10 : ℝ) ^ ((((rating2 - rating1 : ℤ) : ℝ)) / 400))
  let expected2 : ℝ := 1 / (1 + (10 : ℝ) ^ ((((rating1 - rating2 : ℤ) : ℝ)) / 400))
  let actual1 : ℝ := if winner = 0 then 1 / 2 else if winner = 1 then 1 else 0
  let actual2 : ℝ := if winner = 0 then 1 / 2 else if winner = 1 then 0 else 1
  (truncToZeroR ((k_factor : ℝ) * (actual1 - expected1)),
   truncToZeroR ((k_factor : ℝ) * (actual2 - expected2)))

/-! ### PatternDetector (bb.py `check_match_patterns`, `detect_win_trading`) -/

/-- One row of the `match_patterns` table for an ordered pair of players
(`last_match_time` is fetched but unused by the logic, so it is omitted). -/
structure MatchPatternRow where
  total_matches : ℕ
  wins : ℕ
  losses : ℕ
  matches_last_24h : ℕ
deriving DecidableEq

/-- Which of the distinct return branches of `check_match_patterns` produced
the result; `reasonText` below renders the exact message of each branch. -/
inductive PatternReason where
  | frequency (matches24h : ℕ)
  | dominance (percent : ℤ)
  | balance (wins losses : ℕ)
  | clean
deriving DecidableEq

/-- The literal reason string each `check_match_patterns` branch returns. -/
def reasonText : PatternReason → String
  | .frequency m => "🚨 " ++ toString m ++ " matches in 24h"
  | .dominance p => "🚨 " ++ toString p ++ "% matches vs same opponent"
  | .balance w l => "⚖️ Suspicious 50-50 balance (" ++ toString w ++ "W-" ++ toString l ++ "L)"
  | .clean => ""

/-- Embedding of `check_match_patterns` (bb.py lines 1433-1495).  The two
database fetches are passed in: `pattern` is the `match_patterns` row for
(player1, player2) and `total_user_matches` is player1's own
`career_stats.total_matches`. -/
def check_match_patterns (pattern : Option MatchPatternRow)
    (total_user_matches : Option ℕ) : Bool × PatternReason :=
  match pattern with
  | none => (false, .clean)
  | some row =>
    if SUSPICIOUS_OPPONENT_FREQUENCY ≤ row.matches_last_24h then
      (true, .frequency row.matches_last_24h)
    else
      let dominance : Option (Bool × PatternReason) :=
        match total_user_matches with
        | some t =>
          if 0 < t then
            let opponent_percentage : ℚ := (row.total_matches : ℚ) / (t : ℚ)
            if SUSPICIOUS_OPPONENT_PERCENTAGE ≤ opponent_percentage ∧
                10 ≤ row.total_matches then
              some (true, .dominance (truncToZero (opponent_percentage * 100)))
            else none
          else none
        | none => none
      match dominance with
      | some r => r
      | none =>
        if 6 ≤ row.total_matches then
          let win_rate : ℚ := (row.wins : ℚ) / (row.total_matches : ℚ)
          if (45 / 100 ≤ win_rate ∧ win_rate ≤ 55 / 100) ∧ 10 ≤ row.total_matches then
            (true, .balance row.wins row.losses)
          else (false, .clean)
        else (false, .clean)

/-- Embedding of the scanning loop of `detect_win_trading` (bb.py lines
1522-1531): walk adjacent pairs of the winner list, counting consecutive
flips, returning the count at the first moment it reaches the threshold. -/
def win_trading_loop : ℕ → List ℕ → Option ℕ
  | count, w1 :: w2 :: rest =>
    let c := if w1 ≠ w2 then count + 1 else 0
    if WIN_TRADING_CONSECUTIVE_THRESHOLD ≤ c then some c
    else win_trading_loop c (w2 :: rest)
  | _, _ => none

/-- Embedding of `detect_win_trading` (bb.py lines 1497-1533).  `winners` is
the list of `winner_id` values of the last (up to 10) head-to-head matches,
newest first, as fetched by the SQL query. -/
def detect_win_trading (winners : List ℕ) : Bool × String :=
  if winners.length < WIN_TRADING_CONSECUTIVE_THRESHOLD then (false, "")
  else
    match win_trading_loop 0 winners with
    | some c => (true, "Alternating wins detected (" ++ toString (c + 1) ++ " consecutive)")
    | none => (false, "")

/-! ### TrustModel (bb.py `calculate_trust_score`, `get_rating_multiplier`) -/

/-- The database aggregates `calculate_trust_score` fetches: whether a
`career_stats` row exists, the distinct-opponent count, the number and summed
`trust_score_impact` of uncleared `suspicious_activities` rows, and the count
of flagged `match_patterns` rows. -/
structure TrustInputs where
  stats_present : Bool
  unique_opponents : ℕ
  flag_count : ℕ
  flag_impact_sum : ℤ
  flagged_patterns : ℕ
deriving DecidableEq

/-- Embedding of `calculate_trust_score` (bb.py lines 1539-1616): base 50,
plus `min(unique_opponents * 2, 30)`, plus the summed (negative) flag impact
or a +20 clean-record bonus, minus 25 per flagged pattern, clamped to
[0, 100]; 50 if the player has no career row. -/
def calculate_trust_score (inp : TrustInputs) : ℤ :=
  if !inp.stats_present then 50
  else
    let opponent_bonus : ℤ := min ((inp.unique_opponents : ℤ) * 2) 30
    let flag_adjust : ℤ := if 0 < inp.flag_count then inp.flag_impact_sum else 20
    let pattern_adjust : ℤ :=
      if 0 < inp.flagged_patterns then -25 * (inp.flagged_patterns : ℤ) else 0
    max 0 (min 100 (50 + (opponent_bonus + flag_adjust + pattern_adjust)))

/-- Embedding of `get_rating_multiplier` (bb.py lines 1618-1647), the banded
anti-smurf experience multiplier keyed by the player's career
`total_matches`; a missing career row yields the new-player 0.30 band. -/
def get_rating_multiplier (career_total : Option ℕ) : ℚ :=
  match career_total with
  | none => 30 / 100
  | some total =>
    if total ≤ 5 then 30 / 100
    else if 6 ≤ total ∧ total ≤ 10 then 50 / 100
    else if 11 ≤ total ∧ total ≤ 20 then 75 / 100
    else if 21 ≤ total then 1
    else 1

/-! ### RankedMatchCoordinator settlement (bb.py `handle_game_end`, ranked part) -/

/-- The inputs of the anti-cheat block of `handle_game_end` (bb.py lines
3903-3929): the two rating changes computed upstream (K-scaled ELO delta plus
streak bonus), and the database aggregates consumed by the anti-cheat
functions. -/
structure AntiCheatInputs where
  rating_change_p1 : ℤ
  rating_change_p2 : ℤ
  pattern_p1_vs_p2 : Option MatchPatternRow
  pattern_p2_vs_p1 : Option MatchPatternRow
  p1_total_matches : Option ℕ
  p2_total_matches : Option ℕ
  head_to_head_winners : List ℕ
  trust_inputs_p1 : TrustInputs
  trust_inputs_p2 : TrustInputs
deriving DecidableEq

/-- Everything the anti-cheat block of `handle_game_end` computes.  The
`computed_multiplier` fields hold the `get_rating_multiplier` values fetched
at lines 3913-3914, which lines 3924-3925 then overwrite with 1.0; the
`multiplier`, `trust_mult` and `pattern_mult` fields are the values actually
applied at lines 3928-3929. -/
structure AntiCheatOutcome where
  is_suspicious_p1 : Bool
  reason_p1 : PatternReason
  is_suspicious_p2 : Bool
  reason_p2 : PatternReason
  is_win_trading : Bool
  win_trade_details : String
  computed_multiplier_p1 : ℚ
  computed_multiplier_p2 : ℚ
  trust_p1 : ℤ
  trust_p2 : ℤ
  multiplier_p1 : ℚ
  multiplier_p2 : ℚ
  trust_mult_p1 : ℚ
  trust_mult_p2 : ℚ
  pattern_mult : ℚ
  final_change_p1 : ℤ
  final_change_p2 : ℤ
deriving DecidableEq

/-- Embedding of the anti-cheat block of `handle_game_end` (bb.py lines
3903-3929): pattern checks in both directions, win-trading detection,
experience multipliers and trust scores for both players are computed; then
every multiplier is set to 1.0 and the final changes are
`int(rating_change * 1.0 * 1.0 * 1.0)`. -/
def anti_cheat_processing (inp : AntiCheatInputs) : AntiCheatOutcome :=
  let chk1 := check_match_patterns inp.pattern_p1_vs_p2 inp.p1_total_matches
  let chk2 := check_match_patterns inp.pattern_p2_vs_p1 inp.p2_total_matches
  let wt := detect_win_trading inp.head_to_head_winners
  let computed_m1 := get_rating_multiplier inp.p1_total_matches
  let computed_m2 := get_rating_multiplier inp.p2_total_matches
  let t1 := calculate_trust_score inp.trust_inputs_p1
  let t2 := calculate_trust_score inp.trust_inputs_p2
  let trust_mult_p1 : ℚ := 1
  let trust_mult_p2 : ℚ := 1
  let pattern_mult : ℚ := 1
  let multiplier_p1 : ℚ := 1
  let multiplier_p2 : ℚ := 1
  { is_suspicious_p1 := chk1.1
    reason_p1 := chk1.2
    is_suspicious_p2 := chk2.1
    reason_p2 := chk2.2
    is_win_trading := wt.1
    win_trade_details := wt.2
    computed_multiplier_p1 := computed_m1
    computed_multiplier_p2 := computed_m2
    trust_p1 := t1
    trust_p2 := t2
    multiplier_p1 := multiplier_p1
    multiplier_p2 := multiplier_p2
    trust_mult_p1 := trust_mult_p1
    trust_mult_p2 := trust_mult_p2
    pattern_mult := pattern_mult
    final_change_p1 :=
      truncToZero ((inp.rating_change_p1 : ℚ) * multiplier_p1 * trust_mult_p1 * pattern_mult)
    final_change_p2 :=
      truncToZero ((inp.rating_change_p2 : ℚ) * multiplier_p2 * trust_mult_p2 * pattern_mult) }

/-- One player's `career_stats` row, with the fields the settlement and the
ranked entry checks read or write. -/
structure CareerRow where
  rating : ℤ
  rank_tier : String
  total_matches : ℕ
  wins : ℕ
  losses : ℕ
  current_streak : ℕ
  streak_type : String
  trust_score : ℤ
  rating_suspended : Bool
deriving DecidableEq

/-- Embedding of one player's career-stats UPDATE in the settlement of
`handle_game_end` (bb.py lines 3983-4061): rating moves by the final change,
rank is recomputed from the new rating, match and win/loss counters advance,
and the streak is incremented on a win or reset otherwise.  `won` and `lost`
are the `winner == 1` / `winner == 2` comparisons for this player. -/
def settle_update_career (row : CareerRow) (rating_change : ℤ)
    (won lost : Bool) : CareerRow :=
  { row with
    rating := row.rating + rating_change
    rank_tier := get_rank_from_rating (row.rating + rating_change)
    total_matches := row.total_matches + 1
    wins := row.wins + (if won then 1 else 0)
    losses := row.losses + (if lost then 1 else 0)
    current_streak := if won then row.current_streak + 1 else 0
    streak_type := if won then "win" else "none" }

/-- Embedding of the settlement tail of `handle_game_end` for a ranked match:
run the anti-cheat block on the upstream rating changes, then apply the final
changes to both career rows (`winner` is 1, 2 or 0 as in
`calculate_elo_change`). -/
def ranked_settlement (row1 row2 : CareerRow) (inp : AntiCheatInputs)
    (winner : ℕ) : CareerRow × CareerRow :=
  let ac := anti_cheat_processing inp
  (settle_update_career row1 ac.final_change_p1 (winner == 1) (winner == 2),
   settle_update_career row2 ac.final_change_p2 (winner == 2) (winner == 1))

/-- Embedding of the anti-cheat gate of the `/ranked` command (bb.py lines
8767-8790): entry is refused when the trust score is below
`SUSPEND_TRUST_SCORE` or when `rating_suspended` is set. -/
def ranked_entry_allowed (trust_score : ℤ) (rating_suspended : Bool) : Bool :=
  if trust_score < SUSPEND_TRUST_SCORE then false
  else if rating_suspended then false
  else true

/-! ### ChallengeCoordinator timeout (bb.py `challenge_timeout_task`) -/

/-- Embedding of the status transition performed by `challenge_timeout_task`
(bb.py lines 9741-9762) on the stored challenge status: the row is set to
"expired" only when the status is truthy and starts with the prefix
"pending_"; any other status is left as it is. -/
def challenge_timeout_task_update (status : String) : String :=
  if !status.isEmpty && decide ("pending_".toList <+: status.toList) then "expired"
  else status

/-- The challenge statuses written by the challenge flow itself (bb.py lines
9405, 9505-9544, 9707-9709, 9759): "pending" on creation, then "accepted",
"declined", "expired" or "canceled". -/
def challenge_statuses : List String :=
  ["pending", "accepted", "declined", "expired", "canceled"]

/-! ### MatchmakingQueue (bb.py `find_ranked_opponent`, `create_ranked_match`) -/

/-- One value of the in-memory `ranked_queue` dict, with its key
(`user_id`) inlined; `message` stands for the opaque Telegram message
handle. -/
structure QueueEntry where
  user_id : ℕ
  username : String
  rating : ℤ
  rank_tier : String
  joined_at : ℕ
  message : ℕ
deriving DecidableEq

/-- The fields of a `games` dict value that the matchmaking logic reads. -/
structure GameRec where
  creator : ℕ
  joiner : ℕ
  match_id : String
  ranked_match : Bool
deriving DecidableEq

/-- Comparison used by `sorted(ranked_queue.items(), key=joined_at)`. -/
def queue_le (a b : QueueEntry) : Prop := a.joined_at ≤ b.joined_at

instance : DecidableRel queue_le := fun a b => Nat.decLe a.joined_at b.joined_at

instance : IsTotal QueueEntry queue_le := ⟨fun a b => Nat.le_total a.joined_at b.joined_at⟩

instance : IsTrans QueueEntry queue_le := ⟨fun _ _ _ => Nat.le_trans⟩

/-- Test of bb.py lines 3421-3425: is `pid` the creator or joiner of any
active game? -/
def opponent_in_game (games : List (String × GameRec)) (pid : ℕ) : Bool :=
  games.any (fun g => g.2.creator == pid || g.2.joiner == pid)

/-- The dict `find_ranked_opponent` returns on success (bb.py lines
3446-3452): the matched entry without its `joined_at`. -/
structure FoundOpponent where
  user_id : ℕ
  username : String
  rating : ℤ
  rank_tier : String
  message : ℕ
deriving DecidableEq

/-- Projection of a queue entry to the returned opponent dict. -/
def mk_found (e : QueueEntry) : FoundOpponent :=
  ⟨e.user_id, e.username, e.rating, e.rank_tier, e.message⟩

/-- The conjunction of the skip tests of the search loop of
`find_ranked_opponent` (bb.py lines 3416-3443): not the searcher, not in an
active game, no challenge cooldown in either direction, and rating inside
`[user_rating - 200, user_rating + 200]`. -/
def eligible_opponent (games : List (String × GameRec)) (cooldown : ℕ → ℕ → ℕ)
    (user_id : ℕ) (user_rating : ℤ) (e : QueueEntry) : Bool :=
  !(e.user_id == user_id) &&
  !(opponent_in_game games e.user_id) &&
  cooldown user_id e.user_id == 0 &&
  cooldown e.user_id user_id == 0 &&
  decide (user_rating - RANKED_RATING_RANGE ≤ e.rating) &&
  decide (e.rating ≤ user_rating + RANKED_RATING_RANGE)

/-- Embedding of `find_ranked_opponent` (bb.py lines 3403-3457): sort the
queue ascending by `joined_at` and return the first entry passing every skip
test, or `none`.  `cooldown` is the `check_challenge_cooldown` database
lookup (remaining seconds, 0 when none). -/
def find_ranked_opponent (games : List (String × GameRec))
    (cooldown : ℕ → ℕ → ℕ) (queue : List QueueEntry)
    (user_id : ℕ) (user_rating : ℤ) : Option FoundOpponent :=
  let sorted_queue := List.insertionSort queue_le queue
  (sorted_queue.find? (eligible_opponent games cooldown user_id user_rating)).map mk_found

/-- The global mutable state `create_ranked_match` touches: the `games` dict
(keyed by chat id string) and the `ranked_queue`. -/
structure MatchState where
  games : List (String × GameRec)
  ranked_queue : List QueueEntry
deriving DecidableEq

/-- Embedding of `remove_from_ranked_queue` (bb.py lines 3374-3401) on the
in-memory queue: drop the entry with the given user id. -/
def remove_from_ranked_queue (st : MatchState) (uid : ℕ) : MatchState :=
  { st with ranked_queue := st.ranked_queue.filter (fun e => !(e.user_id == uid)) }

/-- The data of one player handed to `create_ranked_match`. -/
structure PlayerQueueData where
  user_id : ℕ
  username : String
  rating : ℤ
  rank_tier : String
deriving DecidableEq

/-- Embedding of `create_ranked_match` (bb.py lines 3459-3499): abort when
either player already sits in a game; otherwise remove both players from the
ranked queue first, then abort if a game already exists under the chat key,
else insert the new ranked game.  `match_id` stands for the random id. -/
def create_ranked_match (st : MatchState) (player1 player2 : PlayerQueueData)
    (chat_id : ℤ) (match_id : String) : Option String × MatchState :=
  if st.games.any (fun g =>
      g.2.creator == player1.user_id || g.2.joiner == player1.user_id ||
      g.2.creator == player2.user_id || g.2.joiner == player2.user_id) then
    (none, st)
  else
    let st1 := remove_from_ranked_queue st player1.user_id
    let st2 := remove_from_ranked_queue st1 player2.user_id
    let game_key := toString chat_id
    if st2.games.any (fun g => g.1 == game_key) then
      (none, st2)
    else
      (some game_key,
       { st2 with games :=
          (game_key,
           { creator := player1.user_id
             joiner := player2.user_id
             match_id := match_id
             ranked_match := true }) :: st2.games })

/-- Number of active games listing `pid` as creator or joiner. -/
def player_game_count (games : List (String × GameRec)) (pid : ℕ) : ℕ :=
  (games.filter (fun g => g.2.creator == pid || g.2.joiner == pid)).length

/-- Invariant: every player sits in at most one active game. -/
def at_most_one_game (games : List (String × GameRec)) : Prop :=
  ∀ pid : ℕ, player_game_count games pid ≤ 1

/-! ### Shared helper lemmas -/

theorem truncToZero_intCast (n : ℤ) : truncToZero (n : ℚ) = n := by
  unfold truncToZero
  split_ifs <;> simp

/-- C2 is recorded as a code bug: the comment above the tier filter of
`calculate_win_streak_bonus` says "No bonus for Platinum+ ranks", and the
claim accordingly states that every tier at or above Platinum (including
Master and Grandmaster) gets bonus 0; but the filter only catches tier names
containing platinum, diamond, ruby or immortal, so Master and Grandmaster
players (who sit above Platinum in the tier order) do receive the bonus.
This theorem evaluates the function at such failing inputs, and also checks
the branches the claim describes correctly. -/
theorem C2_streak_bonus_master_gap :
    calculate_win_streak_bonus 5 "Master I" true 10 = 4 ∧
    calculate_win_streak_bonus 3 "Grandmaster II" true 12 = 2 ∧
    calculate_win_streak_bonus 5 "Platinum I" true 10 = 0 ∧
    calculate_win_streak_bonus 5 "💎 Platinum I" true 10 = 0 ∧
    calculate_win_streak_bonus 5 "💠 Diamond II" true 10 = 0 ∧
    calculate_win_streak_bonus 5 "🔥 Immortal" true 10 = 0 ∧
    calculate_win_streak_bonus 5 "Gold III" false 10 = 0 ∧
    calculate_win_streak_bonus 5 "Gold III" true 4 = 0 ∧
    calculate_win_streak_bonus 5 "Gold III" true 10 = 4 ∧
    calculate_win_streak_bonus 4 "🥈 Silver II" true 10 = 2 ∧
    calculate_win_streak_bonus 3 "🥉 Bronze I" true 5 = 2 ∧
    calculate_win_streak_bonus 2 "Gold III" true 10 = 0 := by
  decide

/-- C4 is recorded as a code bug: the claim (and the docstring of
`challenge_timeout_task`, "Auto-decline challenge after 60 seconds") says a
still-pending challenge is transitioned to "expired" by the timeout task, but
the task only acts on statuses starting with "pending_", while the challenge
flow stores the pending status as exactly "pending" (bb.py line 9405).  So
the task leaves a pending challenge untouched; it does leave every
non-pending status unchanged, as the claim also states. -/
theorem C4_timeout_task_misses_pending :
    challenge_timeout_task_update "pending" = "pending" ∧
    challenge_timeout_task_update "pending" ≠ "expired" ∧
    "pending" ∈ challenge_statuses ∧
    (∀ s ∈ challenge_statuses, challenge_timeout_task_update s = s) ∧
    challenge_timeout_task_update "pending_123_9" = "expired" := by
  decide

/-- Witness for C4: the theorem applied to a concrete stored status. -/
theorem C4_witness : challenge_timeout_task_update "accepted" = "accepted" :=
  C4_timeout_task_misses_pending.2.2.2.1 "accepted" (by decide)

/-- C9 counterexample: the claim says the rating-to-tier lookup maps every
negative rating to the lowest tier Bronze I, but `get_rank_from_rating`
(one of the two lookup functions the claim covers) maps negative ratings to
"Unranked". -/
theorem C9_counterexample :
    get_rank_from_rating (-1) = "Unranked" ∧
    ("Unranked" : String) ≠ "Bronze I" ∧
    ("Unranked" : String) ≠ "🥉 Bronze I" := by
  decide

theorem ladder_index_mono (ts : List ℤ) {r1 r2 : ℤ} (h : r1 ≤ r2) :
    ladder_index ts r1 ≤ ladder_index ts r2 := by
  induction ts with
  | nil => exact Nat.le_refl 0
  | cons t ts ih =>
    by_cases h1 : r1 < t
    · simp [ladder_index, h1]
    · have h2 : ¬ r2 < t := by omega
      simp only [ladder_index, if_neg h1, if_neg h2]
      exact Nat.succ_le_succ ih

theorem ladder_index_le (ts : List ℤ) (r : ℤ) : ladder_index ts r ≤ ts.length := by
  induction ts with
  | nil => exact Nat.le_refl 0
  | cons t ts ih =>
    by_cases h1 : r < t
    · simp [ladder_index, h1]
    · simp only [ladder_index, if_neg h1, List.length_cons]
      exact Nat.succ_le_succ ih

theorem get_rank_tier_getD (r : ℤ) :
    get_rank_tier r = rank_tier_names.getD (rank_tier_index r) "" := by
  by_cases h1 : r < 200
  case pos =>
    unfold get_rank_tier rank_tier_index tier_thresholds
    simp only [ladder_index]
    simp only [if_pos h1]
    rfl
  case neg =>
    by_cases h2 : r < 400
    case pos =>
      unfold get_rank_tier rank_tier_index tier_thresholds
      simp only [ladder_index]
      simp only [if_neg h1, if_pos h2]
      rfl
    case neg =>
      by_cases h3 : r < 600
      case pos =>
        unfold get_rank_tier rank_tier_index tier_thresholds
        simp only [ladder_index]
        simp only [if_neg h1, if_neg h2, if_pos h3]
        rfl
      case neg =>
        by_cases h4 : r < 800
        case pos =>
          unfold get_rank_tier rank_tier_index tier_thresholds
          simp only [ladder_index]
          simp only [if_neg h1, if_neg h2, if_neg h3, if_pos h4]
          rfl
        case neg =>
          by_cases h5 : r < 1000
          case pos =>
            unfold get_rank_tier rank_tier_index tier_thresholds
            simp only [ladder_index]
            simp only [if_neg h1, if_neg h2, if_neg h3, if_neg h4, if_pos h5]
            rfl
          case neg =>
            by_cases h6 : r < 1200
            case pos =>
              unfold get_rank_tier rank_tier_index tier_thresholds
              simp only [ladder_index]
              simp only [if_neg h1, if_neg h2, if_neg h3, if_neg h4, if_neg h5, if_pos h6]
              rfl
            case neg =>
              by_cases h7 : r < 1400
              case pos =>
                unfold get_rank_tier rank_tier_index tier_thresholds
                simp only [ladder_index]
                simp only [if_neg h1, if_neg h2, if_neg h3, if_neg h4, if_neg h5, if_neg h6, if_pos h7]
                rfl
              case neg =>
                by_cases h8 : r < 1600
                case pos =>
                  unfold get_rank_tier rank_tier_index tier_thresholds
                  simp only [ladder_index]
                  simp only [if_neg h1, if_neg h2, if_neg h3, if_neg h4, if_neg h5, if_neg h6, if_neg h7, if_pos h8]
                  rfl
                case neg =>
                  by_cases h9 : r < 1800
                  case pos =>
                    unfold get_rank_tier rank_tier_index tier_thresholds
                    simp only [ladder_index]
                    simp only [if_neg h1, if_neg h2, if_neg h3, if_neg h4, if_neg h5, if_neg h6, if_neg h7, if_neg h8, if_pos h9]
                    rfl
                  case neg =>
                    by_cases h10 : r < 2000
                    case pos =>
                      unfold get_rank_tier rank_tier_index tier_thresholds
                      simp only [ladder_index]
                      simp only [if_neg h1, if_neg h2, if_neg h3, if_neg h4, if_neg h5, if_neg h6, if_neg h7, if_neg h8, if_neg h9, if_pos h10]
                      rfl
                    case neg =>
                      by_cases h11 : r < 2200
                      case pos =>
                        unfold get_rank_tier rank_tier_index tier_thresholds
                        simp only [ladder_index]
                        simp only [if_neg h1, if_neg h2, if_neg h3, if_neg h4, if_neg h5, if_neg h6, if_neg h7, if_neg h8, if_neg h9, if_neg h10, if_pos h11]
                        rfl
                      case neg =>
                        by_cases h12 : r < 2400
                        case pos =>
                          unfold get_rank_tier rank_tier_index tier_thresholds
                          simp only [ladder_index]
                          simp only [if_neg h1, if_neg h2, if_neg h3, if_neg h4, if_neg h5, if_neg h6, if_neg h7, if_neg h8, if_neg h9, if_neg h10, if_neg h11, if_pos h12]
                          rfl
                        case neg =>
                          by_cases h13 : r < 2600
                          case pos =>
                            unfold get_rank_tier rank_tier_index tier_thresholds
                            simp only [ladder_index]
                            simp only [if_neg h1, if_neg h2, if_neg h3, if_neg h4, if_neg h5, if_neg h6, if_neg h7, if_neg h8, if_neg h9, if_neg h10, if_neg h11, if_neg h12, if_pos h13]
                            rfl
                          case neg =>
                            by_cases h14 : r < 2800
                            case pos =>
                              unfold get_rank_tier rank_tier_index tier_thresholds
                              simp only [ladder_index]
                              simp only [if_neg h1, if_neg h2, if_neg h3, if_neg h4, if_neg h5, if_neg h6, if_neg h7, if_neg h8, if_neg h9, if_neg h10, if_neg h11, if_neg h12, if_neg h13, if_pos h14]
                              rfl
                            case neg =>
                              by_cases h15 : r < 3000
                              case pos =>
                                unfold get_rank_tier rank_tier_index tier_thresholds
                                simp only [ladder_index]
                                simp only [if_neg h1, if_neg h2, if_neg h3, if_neg h4, if_neg h5, if_neg h6, if_neg h7, if_neg h8, if_neg h9, if_neg h10, if_neg h11, if_neg h12, if_neg h13, if_neg h14, if_pos h15]
                                rfl
                              case neg =>
                                by_cases h16 : r < 3300
                                case pos =>
                                  unfold get_rank_tier rank_tier_index tier_thresholds
                                  simp only [ladder_index]
                                  simp only [if_neg h1, if_neg h2, if_neg h3, if_neg h4, if_neg h5, if_neg h6, if_neg h7, if_neg h8, if_neg h9, if_neg h10, if_neg h11, if_neg h12, if_neg h13, if_neg h14, if_neg h15, if_pos h16]
                                  rfl
                                case neg =>
                                  by_cases h17 : r < 3600
                                  case pos =>
                                    unfold get_rank_tier rank_tier_index tier_thresholds
                                    simp only [ladder_index]
                                    simp only [if_neg h1, if_neg h2, if_neg h3, if_neg h4, if_neg h5, if_neg h6, if_neg h7, if_neg h8, if_neg h9, if_neg h10, if_neg h11, if_neg h12, if_neg h13, if_neg h14, if_neg h15, if_neg h16, if_pos h17]
                                    rfl
                                  case neg =>
                                    by_cases h18 : r < 4000
                                    case pos =>
                                      unfold get_rank_tier rank_tier_index tier_thresholds
                                      simp only [ladder_index]
                                      simp only [if_neg h1, if_neg h2, if_neg h3, if_neg h4, if_neg h5, if_neg h6, if_neg h7, if_neg h8, if_neg h9, if_neg h10, if_neg h11, if_neg h12, if_neg h13, if_neg h14, if_neg h15, if_neg h16, if_neg h17, if_pos h18]
                                      rfl
                                    case neg =>
                                      by_cases h19 : r < 4400
                                      case pos =>
                                        unfold get_rank_tier rank_tier_index tier_thresholds
                                        simp only [ladder_index]
                                        simp only [if_neg h1, if_neg h2, if_neg h3, if_neg h4, if_neg h5, if_neg h6, if_neg h7, if_neg h8, if_neg h9, if_neg h10, if_neg h11, if_neg h12, if_neg h13, if_neg h14, if_neg h15, if_neg h16, if_neg h17, if_neg h18, if_pos h19]
                                        rfl
                                      case neg =>
                                        by_cases h20 : r < 4800
                                        case pos =>
                                          unfold get_rank_tier rank_tier_index tier_thresholds
                                          simp only [ladder_index]
                                          simp only [if_neg h1, if_neg h2, if_neg h3, if_neg h4, if_neg h5, if_neg h6, if_neg h7, if_neg h8, if_neg h9, if_neg h10, if_neg h11, if_neg h12, if_neg h13, if_neg h14, if_neg h15, if_neg h16, if_neg h17, if_neg h18, if_neg h19, if_pos h20]
                                          rfl
                                        case neg =>
                                          by_cases h21 : r < 5200
                                          case pos =>
                                            unfold get_rank_tier rank_tier_index tier_thresholds
                                            simp only [ladder_index]
                                            simp only [if_neg h1, if_neg h2, if_neg h3, if_neg h4, if_neg h5, if_neg h6, if_neg h7, if_neg h8, if_neg h9, if_neg h10, if_neg h11, if_neg h12, if_neg h13, if_neg h14, if_neg h15, if_neg h16, if_neg h17, if_neg h18, if_neg h19, if_neg h20, if_pos h21]
                                            rfl
                                          case neg =>
                                            unfold get_rank_tier rank_tier_index tier_thresholds
                                            simp only [ladder_index]
                                            simp only [if_neg h1, if_neg h2, if_neg h3, if_neg h4, if_neg h5, if_neg h6, if_neg h7, if_neg h8, if_neg h9, if_neg h10, if_neg h11, if_neg h12, if_neg h13, if_neg h14, if_neg h15, if_neg h16, if_neg h17, if_neg h18, if_neg h19, if_neg h20, if_neg h21]
                                            rfl

theorem get_rank_from_rating_getD (r : ℤ) :
    get_rank_from_rating r = rank_from_rating_names.getD (rank_from_rating_index r) "" := by
  by_cases h1 : r < 0
  case pos =>
    unfold get_rank_from_rating rank_from_rating_index rank_from_rating_thresholds
    simp only [ladder_index]
    simp only [if_pos h1]
    rfl
  case neg =>
    by_cases h2 : r < 200
    case pos =>
      unfold get_rank_from_rating rank_from_rating_index rank_from_rating_thresholds
      simp only [ladder_index]
      simp only [if_neg h1, if_pos h2]
      rfl
    case neg =>
      by_cases h3 : r < 400
      case pos =>
        unfold get_rank_from_rating rank_from_rating_index rank_from_rating_thresholds
        simp only [ladder_index]
        simp only [if_neg h1, if_neg h2, if_pos h3]
        rfl
      case neg =>
        by_cases h4 : r < 600
        case pos =>
          unfold get_rank_from_rating rank_from_rating_index rank_from_rating_thresholds
          simp only [ladder_index]
          simp only [if_neg h1, if_neg h2, if_neg h3, if_pos h4]
          rfl
        case neg =>
          by_cases h5 : r < 800
          case pos =>
            unfold get_rank_from_rating rank_from_rating_index rank_from_rating_thresholds
            simp only [ladder_index]
            simp only [if_neg h1, if_neg h2, if_neg h3, if_neg h4, if_pos h5]
            rfl
          case neg =>
            by_cases h6 : r < 1000
            case pos =>
              unfold get_rank_from_rating rank_from_rating_index rank_from_rating_thresholds
              simp only [ladder_index]
              simp only [if_neg h1, if_neg h2, if_neg h3, if_neg h4, if_neg h5, if_pos h6]
              rfl
            case neg =>
              by_cases h7 : r < 1200
              case pos =>
                unfold get_rank_from_rating rank_from_rating_index rank_from_rating_thresholds
                simp only [ladder_index]
                simp only [if_neg h1, if_neg h2, if_neg h3, if_neg h4, if_neg h5, if_neg h6, if_pos h7]
                rfl
              case neg =>
                by_cases h8 : r < 1400
                case pos =>
                  unfold get_rank_from_rating rank_from_rating_index rank_from_rating_thresholds
                  simp only [ladder_index]
                  simp only [if_neg h1, if_neg h2, if_neg h3, if_neg h4, if_neg h5, if_neg h6, if_neg h7, if_pos h8]
                  rfl
                case neg =>
                  by_cases h9 : r < 1600
                  case pos =>
                    unfold get_rank_from_rating rank_from_rating_index rank_from_rating_thresholds
                    simp only [ladder_index]
                    simp only [if_neg h1, if_neg h2, if_neg h3, if_neg h4, if_neg h5, if_neg h6, if_neg h7, if_neg h8, if_pos h9]
                    rfl
                  case neg =>
                    by_cases h10 : r < 1800
                    case pos =>
                      unfold get_rank_from_rating rank_from_rating_index rank_from_rating_thresholds
                      simp only [ladder_index]
                      simp only [if_neg h1, if_neg h2, if_neg h3, if_neg h4, if_neg h5, if_neg h6, if_neg h7, if_neg h8, if_neg h9, if_pos h10]
                      rfl
                    case neg =>
                      by_cases h11 : r < 2000
                      case pos =>
                        unfold get_rank_from_rating rank_from_rating_index rank_from_rating_thresholds
                        simp only [ladder_index]
                        simp only [if_neg h1, if_neg h2, if_neg h3, if_neg h4, if_neg h5, if_neg h6, if_neg h7, if_neg h8, if_neg h9, if_neg h10, if_pos h11]
                        rfl
                      case neg =>
                        by_cases h12 : r < 2200
                        case pos =>
                          unfold get_rank_from_rating rank_from_rating_index rank_from_rating_thresholds
                          simp only [ladder_index]
                          simp only [if_neg h1, if_neg h2, if_neg h3, if_neg h4, if_neg h5, if_neg h6, if_neg h7, if_neg h8, if_neg h9, if_neg h10, if_neg h11, if_pos h12]
                          rfl
                        case neg =>
                          by_cases h13 : r < 2400
                          case pos =>
                            unfold get_rank_from_rating rank_from_rating_index rank_from_rating_thresholds
                            simp only [ladder_index]
                            simp only [if_neg h1, if_neg h2, if_neg h3, if_neg h4, if_neg h5, if_neg h6, if_neg h7, if_neg h8, if_neg h9, if_neg h10, if_neg h11, if_neg h12, if_pos h13]
                            rfl
                          case neg =>
                            by_cases h14 : r < 2600
                            case pos =>
                              unfold get_rank_from_rating rank_from_rating_index rank_from_rating_thresholds
                              simp only [ladder_index]
                              simp only [if_neg h1, if_neg h2, if_neg h3, if_neg h4, if_neg h5, if_neg h6, if_neg h7, if_neg h8, if_neg h9, if_neg h10, if_neg h11, if_neg h12, if_neg h13, if_pos h14]
                              rfl
                            case neg =>
                              by_cases h15 : r < 2800
                              case pos =>
                                unfold get_rank_from_rating rank_from_rating_index rank_from_rating_thresholds
                                simp only [ladder_index]
                                simp only [if_neg h1, if_neg h2, if_neg h3, if_neg h4, if_neg h5, if_neg h6, if_neg h7, if_neg h8, if_neg h9, if_neg h10, if_neg h11, if_neg h12, if_neg h13, if_neg h14, if_pos h15]
                                rfl
                              case neg =>
                                by_cases h16 : r < 3000
                                case pos =>
                                  unfold get_rank_from_rating rank_from_rating_index rank_from_rating_thresholds
                                  simp only [ladder_index]
                                  simp only [if_neg h1, if_neg h2, if_neg h3, if_neg h4, if_neg h5, if_neg h6, if_neg h7, if_neg h8, if_neg h9, if_neg h10, if_neg h11, if_neg h12, if_neg h13, if_neg h14, if_neg h15, if_pos h16]
                                  rfl
                                case neg =>
                                  by_cases h17 : r < 3300
                                  case pos =>
                                    unfold get_rank_from_rating rank_from_rating_index rank_from_rating_thresholds
                                    simp only [ladder_index]
                                    simp only [if_neg h1, if_neg h2, if_neg h3, if_neg h4, if_neg h5, if_neg h6, if_neg h7, if_neg h8, if_neg h9, if_neg h10, if_neg h11, if_neg h12, if_neg h13, if_neg h14, if_neg h15, if_neg h16, if_pos h17]
                                    rfl
                                  case neg =>
                                    by_cases h18 : r < 3600
                                    case pos =>
                                      unfold get_rank_from_rating rank_from_rating_index rank_from_rating_thresholds
                                      simp only [ladder_index]
                                      simp only [if_neg h1, if_neg h2, if_neg h3, if_neg h4, if_neg h5, if_neg h6, if_neg h7, if_neg h8, if_neg h9, if_neg h10, if_neg h11, if_neg h12, if_neg h13, if_neg h14, if_neg h15, if_neg h16, if_neg h17, if_pos h18]
                                      rfl
                                    case neg =>
                                      by_cases h19 : r < 4000
                                      case pos =>
                                        unfold get_rank_from_rating rank_from_rating_index rank_from_rating_thresholds
                                        simp only [ladder_index]
                                        simp only [if_neg h1, if_neg h2, if_neg h3, if_neg h4, if_neg h5, if_neg h6, if_neg h7, if_neg h8, if_neg h9, if_neg h10, if_neg h11, if_neg h12, if_neg h13, if_neg h14, if_neg h15, if_neg h16, if_neg h17, if_neg h18, if_pos h19]
                                        rfl
                                      case neg =>
                                        by_cases h20 : r < 4400
                                        case pos =>
                                          unfold get_rank_from_rating rank_from_rating_index rank_from_rating_thresholds
                                          simp only [ladder_index]
                                          simp only [if_neg h1, if_neg h2, if_neg h3, if_neg h4, if_neg h5, if_neg h6, if_neg h7, if_neg h8, if_neg h9, if_neg h10, if_neg h11, if_neg h12, if_neg h13, if_neg h14, if_neg h15, if_neg h16, if_neg h17, if_neg h18, if_neg h19, if_pos h20]
                                          rfl
                                        case neg =>
                                          by_cases h21 : r < 4800
                                          case pos =>
                                            unfold get_rank_from_rating rank_from_rating_index rank_from_rating_thresholds
                                            simp only [ladder_index]
                                            simp only [if_neg h1, if_neg h2, if_neg h3, if_neg h4, if_neg h5, if_neg h6, if_neg h7, if_neg h8, if_neg h9, if_neg h10, if_neg h11, if_neg h12, if_neg h13, if_neg h14, if_neg h15, if_neg h16, if_neg h17, if_neg h18, if_neg h19, if_neg h20, if_pos h21]
                                            rfl
                                          case neg =>
                                            by_cases h22 : r < 5200
                                            case pos =>
                                              unfold get_rank_from_rating rank_from_rating_index rank_from_rating_thresholds
                                              simp only [ladder_index]
                                              simp only [if_neg h1, if_neg h2, if_neg h3, if_neg h4, if_neg h5, if_neg h6, if_neg h7, if_neg h8, if_neg h9, if_neg h10, if_neg h11, if_neg h12, if_neg h13, if_neg h14, if_neg h15, if_neg h16, if_neg h17, if_neg h18, if_neg h19, if_neg h20, if_neg h21, if_pos h22]
                                              rfl
                                            case neg =>
                                              by_cases h23 : r < 5600
                                              case pos =>
                                                unfold get_rank_from_rating rank_from_rating_index rank_from_rating_thresholds
                                                simp only [ladder_index]
                                                simp only [if_neg h1, if_neg h2, if_neg h3, if_neg h4, if_neg h5, if_neg h6, if_neg h7, if_neg h8, if_neg h9, if_neg h10, if_neg h11, if_neg h12, if_neg h13, if_neg h14, if_neg h15, if_neg h16, if_neg h17, if_neg h18, if_neg h19, if_neg h20, if_neg h21, if_neg h22, if_pos h23]
                                                rfl
                                              case neg =>
                                                by_cases h24 : r < 6000
                                                case pos =>
                                                  unfold get_rank_from_rating rank_from_rating_index rank_from_rating_thresholds
                                                  simp only [ladder_index]
                                                  simp only [if_neg h1, if_neg h2, if_neg h3, if_neg h4, if_neg h5, if_neg h6, if_neg h7, if_neg h8, if_neg h9, if_neg h10, if_neg h11, if_neg h12, if_neg h13, if_neg h14, if_neg h15, if_neg h16, if_neg h17, if_neg h18, if_neg h19, if_neg h20, if_neg h21, if_neg h22, if_neg h23, if_pos h24]
                                                  rfl
                                                case neg =>
                                                  unfold get_rank_from_rating rank_from_rating_index rank_from_rating_thresholds
                                                  simp only [ladder_index]
                                                  simp only [if_neg h1, if_neg h2, if_neg h3, if_neg h4, if_neg h5, if_neg h6, if_neg h7, if_neg h8, if_neg h9, if_neg h10, if_neg h11, if_neg h12, if_neg h13, if_neg h14, if_neg h15, if_neg h16, if_neg h17, if_neg h18, if_neg h19, if_neg h20, if_neg h21, if_neg h22, if_neg h23, if_neg h24]
                                                  rfl

/-- C9 as amended: both rating-to-tier lookups are total functions defined on
all integers, picking the band of an ascending threshold ladder, with band
index monotone non-decreasing in the rating; `get_rank_tier` maps every
negative rating to "🥉 Bronze I" (the lowest tier), while
`get_rank_from_rating` maps every negative rating to the separate label
"Unranked" sitting below Bronze I. -/
theorem C9_tier_lookup_monotone_total (r r1 r2 : ℤ) :
    (r1 ≤ r2 → rank_tier_index r1 ≤ rank_tier_index r2) ∧
    (r1 ≤ r2 → rank_from_rating_index r1 ≤ rank_from_rating_index r2) ∧
    get_rank_tier r = rank_tier_names.getD (rank_tier_index r) "" ∧
    get_rank_from_rating r = rank_from_rating_names.getD (rank_from_rating_index r) "" ∧
    rank_tier_index r < rank_tier_names.length ∧
    rank_from_rating_index r < rank_from_rating_names.length ∧
    (r < 0 → get_rank_tier r = "🥉 Bronze I") ∧
    (r < 0 → get_rank_from_rating r = "Unranked") := by
  refine ⟨fun h => ladder_index_mono _ h, fun h => ladder_index_mono _ h,
    get_rank_tier_getD r, get_rank_from_rating_getD r, ?_, ?_, ?_, ?_⟩
  · exact Nat.lt_of_le_of_lt (ladder_index_le tier_thresholds r) (by decide)
  · exact Nat.lt_of_le_of_lt (ladder_index_le rank_from_rating_thresholds r) (by decide)
  · intro h
    unfold get_rank_tier
    rw [if_pos (by omega)]
  · intro h
    unfold get_rank_from_rating
    rw [if_pos h]

/-- Witness for C9: the amended theorem applied at concrete ratings. -/
theorem C9_witness :
    (rank_tier_index (-5) ≤ rank_tier_index 3000) ∧
    get_rank_from_rating (-5) = "Unranked" ∧
    get_rank_tier (-5) = "🥉 Bronze I" :=
  ⟨(C9_tier_lookup_monotone_total (-5) (-5) 3000).1 (by decide),
   (C9_tier_lookup_monotone_total (-5) (-5) 3000).2.2.2.2.2.2.2 (by decide),
   (C9_tier_lookup_monotone_total (-5) (-5) 3000).2.2.2.2.2.2.1 (by decide)⟩

/-- Career row of a player whose rating is suspended, for the C1
counterexample. -/
def c1_suspended_row : CareerRow :=
  ⟨1000, "Silver III", 20, 10, 10, 0, "none", 50, true⟩

/-- Career row of the suspended player's opponent in the C1 counterexample. -/
def c1_opponent_row : CareerRow :=
  ⟨1000, "Silver III", 20, 10, 10, 0, "none", 50, false⟩

/-- Anti-cheat inputs of the C1 counterexample match: upstream rating changes
+16 and -16, no pattern rows, clean trust inputs. -/
def c1_inputs : AntiCheatInputs :=
  ⟨16, -16, none, none, some 20, some 20, [], ⟨true, 3, 0, 0, 0⟩, ⟨true, 3, 0, 0, 0⟩⟩

/-- C1 counterexample: the claim says a player whose `rating_suspended` flag
is true keeps their rating unchanged through settlement, but the settlement
pipeline of `handle_game_end` never consults the flag: settling a won match
for a suspended player at rating 1000 with computed change +16 moves the
rating to 1016. -/
theorem C1_counterexample :
    c1_suspended_row.rating_suspended = true ∧
    (ranked_settlement c1_suspended_row c1_opponent_row c1_inputs 1).1.rating = 1016 ∧
    (ranked_settlement c1_suspended_row c1_opponent_row c1_inputs 1).1.rating ≠
      c1_suspended_row.rating := by
  refine ⟨rfl, ?_, ?_⟩ <;>
    norm_num [ranked_settlement, anti_cheat_processing, settle_update_career,
      truncToZero, c1_suspended_row, c1_opponent_row, c1_inputs]

/-- C1 as amended: the settlement pipeline applies the computed rating change
regardless of the `rating_suspended` flag (a suspended player's rating does
change by exactly the final change if a ranked match of theirs completes);
the flag is instead enforced at ranked entry, where `/ranked` refuses a
suspended player. -/
theorem C1_settlement_ignores_suspension (row1 row2 : CareerRow)
    (inp : AntiCheatInputs) (winner : ℕ) (trust : ℤ) :
    (ranked_settlement { row1 with rating_suspended := true } row2 inp winner).1.rating
      = row1.rating + (anti_cheat_processing inp).final_change_p1 ∧
    (ranked_settlement { row1 with rating_suspended := false } row2 inp winner).1.rating
      = row1.rating + (anti_cheat_processing inp).final_change_p1 ∧
    (ranked_settlement row1 { row2 with rating_suspended := true } inp winner).2.rating
      = row2.rating + (anti_cheat_processing inp).final_change_p2 ∧
    ranked_entry_allowed trust true = false := by
  refine ⟨rfl, rfl, rfl, ?_⟩
  unfold ranked_entry_allowed
  split_ifs <;> simp_all

/-- C5: in every ranked settlement the anti-cheat block computes the
experience multipliers, trust scores and pattern checks for both players
(and the win-trading check for the pair), but the multipliers it applies are
all hardcoded to 1.0, so each player's final rating change equals the
upstream rating change, which is the K-scaled base ELO delta plus the streak
bonus. -/
theorem C5_multipliers_hardcoded_one (inp : AntiCheatInputs) :
    (anti_cheat_processing inp).multiplier_p1 = 1 ∧
    (anti_cheat_processing inp).multiplier_p2 = 1 ∧
    (anti_cheat_processing inp).trust_mult_p1 = 1 ∧
    (anti_cheat_processing inp).trust_mult_p2 = 1 ∧
    (anti_cheat_processing inp).pattern_mult = 1 ∧
    (anti_cheat_processing inp).final_change_p1 = inp.rating_change_p1 ∧
    (anti_cheat_processing inp).final_change_p2 = inp.rating_change_p2 ∧
    (anti_cheat_processing inp).computed_multiplier_p1
      = get_rating_multiplier inp.p1_total_matches ∧
    (anti_cheat_processing inp).computed_multiplier_p2
      = get_rating_multiplier inp.p2_total_matches ∧
    (anti_cheat_processing inp).trust_p1 = calculate_trust_score inp.trust_inputs_p1 ∧
    (anti_cheat_processing inp).trust_p2 = calculate_trust_score inp.trust_inputs_p2 ∧
    ((anti_cheat_processing inp).is_suspicious_p1, (anti_cheat_processing inp).reason_p1)
      = check_match_patterns inp.pattern_p1_vs_p2 inp.p1_total_matches ∧
    ((anti_cheat_processing inp).is_suspicious_p2, (anti_cheat_processing inp).reason_p2)
      = check_match_patterns inp.pattern_p2_vs_p1 inp.p2_total_matches ∧
    ((anti_cheat_processing inp).is_win_trading, (anti_cheat_processing inp).win_trade_details)
      = detect_win_trading inp.head_to_head_winners := by
  refine ⟨rfl, rfl, rfl, rfl, rfl, ?_, ?_, rfl, rfl, rfl, rfl, rfl, rfl, rfl⟩ <;>
    simp [anti_cheat_processing, mul_one, truncToZero_intCast]

theorem truncToZeroR_neg (x : ℝ) : truncToZeroR (-x) = -truncToZeroR x := by
  unfold truncToZeroR
  rcases lt_trichotomy x 0 with h | h | h
  · rw [if_pos (by linarith), if_neg (by linarith), Int.floor_neg]
  · subst h
    norm_num
  · rw [if_neg (by linarith), if_pos (by linarith), Int.ceil_neg]

theorem calculate_elo_change_self (r k : ℤ) (w : ℕ) :
    calculate_elo_change r r w k =
      (truncToZeroR ((k : ℝ) * ((if w = 0 then 1 / 2 else if w = 1 then 1 else 0) - 1 / 2)),
       truncToZeroR ((k : ℝ) * ((if w = 0 then 1 / 2 else if w = 1 then 0 else 1) - 1 / 2))) := by
  unfold calculate_elo_change
  norm_num [Real.rpow_zero]

/-- C8: for equal ratings and any K-factor, a decisive result of
`calculate_elo_change` is zero-sum: the winner's delta is the negation of the
loser's, both being `k * (actual - expected)` truncated toward zero; at
k = 35 the deltas are 17 and -17 (truncation of 17.5, not rounding). -/
theorem C8_elo_zero_sum_equal_ratings (r k : ℤ) :
    (calculate_elo_change r r 1 k).1 = -(calculate_elo_change r r 1 k).2 ∧
    (calculate_elo_change r r 2 k).1 = -(calculate_elo_change r r 2 k).2 ∧
    (calculate_elo_change 1200 1200 1 35).1 = 17 ∧
    (calculate_elo_change 1200 1200 1 35).2 = -17 := by
  refine ⟨?_, ?_, ?_, ?_⟩
  · rw [calculate_elo_change_self]
    norm_num
    rw [truncToZeroR_neg, neg_neg]
  · rw [calculate_elo_change_self]
    norm_num
    rw [truncToZeroR_neg]
  · rw [calculate_elo_change_self]
    norm_num [truncToZeroR]
  · rw [calculate_elo_change_self]
    norm_num [truncToZeroR]
    rw [Int.ceil_eq_iff]
    norm_num

/-- C3 counterexample: the claim says the dominance (opponent-percentage)
rule fires exactly when the frequency rule did not, the player's own total
match count is at least 10, and the pair total divided by the player total is
at least 0.30.  With a pair record of 5 matches (none in 24h) and a player
total of 10, all three of those conditions hold, yet `check_match_patterns`
reports nothing: the ≥ 10 gate in the code is on the pair record's
`total_matches`, not on the player's own count. -/
theorem C3_counterexample :
    (0 : ℕ) < SUSPICIOUS_OPPONENT_FREQUENCY ∧
    10 ≤ (10 : ℕ) ∧
    SUSPICIOUS_OPPONENT_PERCENTAGE ≤ (5 : ℚ) / (10 : ℚ) ∧
    check_match_patterns (some ⟨5, 3, 2, 0⟩) (some 10) = (false, .clean) := by
  refine ⟨by norm_num [SUSPICIOUS_OPPONENT_FREQUENCY], by norm_num,
    by norm_num [SUSPICIOUS_OPPONENT_PERCENTAGE], ?_⟩
  norm_num [check_match_patterns, SUSPICIOUS_OPPONENT_FREQUENCY,
    SUSPICIOUS_OPPONENT_PERCENTAGE]

/-- C3 as amended: `check_match_patterns` returns the dominance
(opponent-percentage) result exactly when the frequency rule did not fire,
the player's own career total exists and is positive, the pair total divided
by the player total is at least 0.30, and additionally the PAIR record's
total match count is at least 10 (the ≥ 10 gate is on the pair count, not on
the player's own count). -/
theorem C3_dominance_iff (row : MatchPatternRow) (t : ℕ) :
    check_match_patterns (some row) (some t)
      = (true, .dominance (truncToZero ((row.total_matches : ℚ) / (t : ℚ) * 100)))
    ↔ (row.matches_last_24h < SUSPICIOUS_OPPONENT_FREQUENCY ∧ 0 < t ∧
       SUSPICIOUS_OPPONENT_PERCENTAGE ≤ (row.total_matches : ℚ) / (t : ℚ) ∧
       10 ≤ row.total_matches) := by
  unfold check_match_patterns
  by_cases h1 : SUSPICIOUS_OPPONENT_FREQUENCY ≤ row.matches_last_24h
  · simp only [if_pos h1]
    constructor
    · intro h
      simp at h
    · intro h
      omega
  · simp only [if_neg h1]
    by_cases h2 : 0 < t
    · simp only [if_pos h2]
      by_cases h3 : SUSPICIOUS_OPPONENT_PERCENTAGE ≤ (row.total_matches : ℚ) / (t : ℚ) ∧
          10 ≤ row.total_matches
      · simp only [if_pos h3]
        simp only [true_iff, eq_self_iff_true]
        exact ⟨by omega, h2, h3.1, h3.2⟩
      · simp only [if_neg h3]
        constructor
        · intro h
          by_cases h4 : 6 ≤ row.total_matches
          · simp only [if_pos h4] at h
            by_cases h5 : ((45 : ℚ) / 100 ≤ (row.wins : ℚ) / (row.total_matches : ℚ) ∧
                (row.wins : ℚ) / (row.total_matches : ℚ) ≤ 55 / 100) ∧ 10 ≤ row.total_matches
            · simp only [if_pos h5] at h
              simp at h
            · simp only [if_neg h5] at h
              simp at h
          · simp only [if_neg h4] at h
            simp at h
        · intro h
          exact absurd ⟨h.2.2.1, h.2.2.2⟩ h3
    · simp only [if_neg h2]
      constructor
      · intro h
        by_cases h4 : 6 ≤ row.total_matches
        · simp only [if_pos h4] at h
          by_cases h5 : ((45 : ℚ) / 100 ≤ (row.wins : ℚ) / (row.total_matches : ℚ) ∧
              (row.wins : ℚ) / (row.total_matches : ℚ) ≤ 55 / 100) ∧ 10 ≤ row.total_matches
          · simp only [if_pos h5] at h
            simp at h
          · simp only [if_neg h5] at h
            simp at h
        · simp only [if_neg h4] at h
          simp at h
      · intro h
        exact absurd h.2.1 h2

theorem find_first_minimal {p : QueueEntry → Bool} {x : QueueEntry} :
    ∀ l : List QueueEntry, l.Sorted queue_le → l.find? p = some x →
      ∀ y ∈ l, p y = true → x.joined_at ≤ y.joined_at := by
  intro l
  induction l with
  | nil =>
    intro _ hf
    simp at hf
  | cons a l ih =>
    intro hs hf y hy hpy
    rw [List.sorted_cons] at hs
    rw [List.find?_cons] at hf
    cases hpa : p a with
    | true =>
      rw [hpa] at hf
      have hx : a = x := by
        simpa using hf
      rcases List.mem_cons.mp hy with hya | hyl
      · rw [← hx, hya]
      · rw [← hx]
        exact hs.1 y hyl
    | false =>
      rw [hpa] at hf
      rcases List.mem_cons.mp hy with hya | hyl
      · rw [hya] at hpy
        rw [hpy] at hpa
        exact absurd hpa (by simp)
      · exact ih hs.2 hf y hyl hpy

/-- Concrete FIFO scenario for C6: three eligible entries joined at times
3, 1 and 2. -/
def fifo_queue_example : List QueueEntry :=
  [⟨1, "a", 1000, "Silver II", 3, 0⟩, ⟨2, "b", 1000, "Silver II", 1, 0⟩,
   ⟨3, "c", 1000, "Silver II", 2, 0⟩]

/-- C6: `find_ranked_opponent` returns an eligible entry of minimal
`joined_at` among all queued entries that are not the searcher, not in an
active game, have no challenge cooldown in either direction, and whose rating
lies within 200 points of the searcher's; it returns `none` exactly when no
entry is eligible.  In the concrete scenario with eligible entries joined at
times 3 < 1 < 2, the entry joined at time 1 is returned. -/
theorem C6_find_ranked_opponent_fifo (games : List (String × GameRec))
    (cooldown : ℕ → ℕ → ℕ) (queue : List QueueEntry) (uid : ℕ) (r : ℤ) :
    (∀ f, find_ranked_opponent games cooldown queue uid r = some f →
       ∃ e, e ∈ queue ∧ eligible_opponent games cooldown uid r e = true ∧
         f = mk_found e ∧
         ∀ y ∈ queue, eligible_opponent games cooldown uid r y = true →
           e.joined_at ≤ y.joined_at) ∧
    (find_ranked_opponent games cooldown queue uid r = none ↔
       ∀ e ∈ queue, eligible_opponent games cooldown uid r e = false) ∧
    find_ranked_opponent [] (fun _ _ => 0) fifo_queue_example 9 1000
      = some (mk_found ⟨2, "b", 1000, "Silver II", 1, 0⟩) := by
  have hperm := List.perm_insertionSort queue_le queue
  have hsort := List.sorted_insertionSort queue_le queue
  refine ⟨?_, ?_, by decide⟩
  · intro f hf
    unfold find_ranked_opponent at hf
    rcases Option.map_eq_some'.mp hf with ⟨e, he, hfe⟩
    refine ⟨e, hperm.mem_iff.mp (List.mem_of_find?_eq_some he),
      List.find?_some he, hfe.symm, ?_⟩
    intro y hy hpy
    exact find_first_minimal _ hsort he y (hperm.mem_iff.mpr hy) hpy
  · unfold find_ranked_opponent
    rw [Option.map_eq_none']
    rw [List.find?_eq_none]
    constructor
    · intro h e he
      have := h e (hperm.mem_iff.mpr he)
      simpa using this
    · intro h e he
      have := h e (hperm.mem_iff.mp he)
      simp [this]

/-- Witness for C6: the theorem applied to the empty queue. -/
theorem C6_witness :
    find_ranked_opponent [] (fun _ _ => 0) [] 0 0 = none ↔
      ∀ e ∈ ([] : List QueueEntry), eligible_opponent [] (fun _ _ => 0) 0 0 e = false :=
  (C6_find_ranked_opponent_fifo [] (fun _ _ => 0) [] 0 0).2.1

theorem remove_from_ranked_queue_games (st : MatchState) (uid : ℕ) :
    (remove_from_ranked_queue st uid).games = st.games := rfl

theorem player_game_count_cons (k : String) (g : GameRec)
    (gs : List (String × GameRec)) (pid : ℕ) :
    player_game_count ((k, g) :: gs) pid =
      (if (g.creator == pid || g.joiner == pid) = true then 1 else 0) +
        player_game_count gs pid := by
  unfold player_game_count
  rw [List.filter_cons]
  by_cases hpid : (g.creator == pid || g.joiner == pid) = true
  · rw [if_pos hpid, if_pos hpid]
    simp [Nat.add_comm]
  · rw [if_neg hpid, if_neg hpid]
    simp

/-- C10: `create_ranked_match` returns `none` and leaves the games map
unchanged whenever either player already sits in an active game or a game
already exists under the target chat key; on the success path the new ranked
game is inserted with both players, the final queue contains neither player
(both were removed before the insert), and the at-most-one-active-game-per-
player invariant is preserved. -/
theorem C10_create_ranked_match_spec (st : MatchState) (p1 p2 : PlayerQueueData)
    (chat : ℤ) (mid : String) :
    ((∃ g ∈ st.games, g.2.creator = p1.user_id ∨ g.2.joiner = p1.user_id ∨
        g.2.creator = p2.user_id ∨ g.2.joiner = p2.user_id) →
      create_ranked_match st p1 p2 chat mid = (none, st)) ∧
    ((∃ g ∈ st.games, g.1 = toString chat) →
      (create_ranked_match st p1 p2 chat mid).1 = none ∧
      (create_ranked_match st p1 p2 chat mid).2.games = st.games) ∧
    (∀ k, (create_ranked_match st p1 p2 chat mid).1 = some k →
      (∀ e ∈ (create_ranked_match st p1 p2 chat mid).2.ranked_queue,
        e.user_id ≠ p1.user_id ∧ e.user_id ≠ p2.user_id) ∧
      ∃ gr : GameRec, gr.creator = p1.user_id ∧ gr.joiner = p2.user_id ∧
        gr.ranked_match = true ∧
        (create_ranked_match st p1 p2 chat mid).2.games = (toString chat, gr) :: st.games) ∧
    (at_most_one_game st.games →
      at_most_one_game (create_ranked_match st p1 p2 chat mid).2.games) := by
  by_cases hbusy : st.games.any (fun g =>
      g.2.creator == p1.user_id || g.2.joiner == p1.user_id ||
      g.2.creator == p2.user_id || g.2.joiner == p2.user_id) = true
  · have hres : create_ranked_match st p1 p2 chat mid = (none, st) := by
      unfold create_ranked_match
      rw [if_pos hbusy]
    refine ⟨fun _ => hres, ?_, ?_, ?_⟩
    · intro _
      rw [hres]
      exact ⟨rfl, rfl⟩
    · intro k hk
      rw [hres] at hk
      simp at hk
    · intro hinv
      rw [hres]
      exact hinv
  · have hnb : ∀ g ∈ st.games, ¬(g.2.creator == p1.user_id || g.2.joiner == p1.user_id ||
        g.2.creator == p2.user_id || g.2.joiner == p2.user_id) = true := by
      rw [List.any_eq_true] at hbusy
      push_neg at hbusy
      exact hbusy
    by_cases hkey : st.games.any (fun g => g.1 == toString chat) = true
    · have hres : (create_ranked_match st p1 p2 chat mid).1 = none ∧
          (create_ranked_match st p1 p2 chat mid).2.games = st.games := by
        unfold create_ranked_match
        rw [if_neg hbusy]
        simp only [remove_from_ranked_queue_games]
        rw [if_pos hkey]
        exact ⟨rfl, rfl⟩
      refine ⟨?_, fun _ => hres, ?_, ?_⟩
      · intro hex
        exfalso
        rcases hex with ⟨g, hg, hcj⟩
        exact hnb g hg (by simp only [Bool.or_eq_true, beq_iff_eq]; tauto)
      · intro k hk
        rw [hres.1] at hk
        simp at hk
      · intro hinv
        rw [hres.2]
        exact hinv
    · have hres : create_ranked_match st p1 p2 chat mid =
          (some (toString chat),
           { games := (toString chat,
               { creator := p1.user_id, joiner := p2.user_id,
                 match_id := mid, ranked_match := true }) :: st.games
             ranked_queue :=
               (st.ranked_queue.filter (fun e => !(e.user_id == p1.user_id))).filter
                 (fun e => !(e.user_id == p2.user_id)) }) := by
        unfold create_ranked_match remove_from_ranked_queue
        rw [if_neg hbusy]
        simp only []
        rw [if_neg hkey]
      refine ⟨?_, ?_, ?_, ?_⟩
      · intro hex
        exfalso
        rcases hex with ⟨g, hg, hcj⟩
        exact hnb g hg (by simp only [Bool.or_eq_true, beq_iff_eq]; tauto)
      · intro hex
        exfalso
        rcases hex with ⟨g, hg, hk⟩
        rw [List.any_eq_true] at hkey
        push_neg at hkey
        exact hkey g hg (by simp [hk])
      · intro k _
        constructor
        · intro e he
          rw [hres] at he
          simp only [List.mem_filter] at he
          refine ⟨?_, ?_⟩
          · have := he.1.2
            simpa using this
          · have := he.2
            simpa using this
        · exact ⟨_, rfl, rfl, rfl, by rw [hres]⟩
      · intro hinv pid
        rw [hres]
        show player_game_count _ pid ≤ 1
        rw [player_game_count_cons]
        by_cases hpid : ((p1.user_id == pid) || (p2.user_id == pid)) = true
        · rw [if_pos (by simpa using hpid)]
          have hzero : player_game_count st.games pid = 0 := by
            unfold player_game_count
            rw [List.length_eq_zero, List.filter_eq_nil_iff]
            intro g hg
            have := hnb g hg
            rcases (Bool.or_eq_true _ _).mp hpid with h1 | h1 <;>
              · rw [beq_iff_eq] at h1
                subst h1
                simp only [Bool.or_eq_true, beq_iff_eq] at this ⊢
                tauto
          rw [hzero]
        · rw [if_neg (by simpa using hpid)]
          simpa using hinv pid

/-- Witness for C10: the theorem applied to a concrete busy state — player 7
already sits in a game, so match creation is refused and the state is left
unchanged. -/
theorem C10_witness :
    create_ranked_match
        ⟨[("5", ⟨7, 8, "R1", true⟩)], []⟩ ⟨7, "a", 1000, "Gold I"⟩ ⟨9, "b", 1000, "Gold I"⟩
        5 "R2"
      = (none, ⟨[("5", ⟨7, 8, "R1", true⟩)], []⟩) :=
  (C10_create_ranked_match_spec ⟨[("5", ⟨7, 8, "R1", true⟩)], []⟩
    ⟨7, "a", 1000, "Gold I"⟩ ⟨9, "b", 1000, "Gold I"⟩ 5 "R2").1
    ⟨("5", ⟨7, 8, "R1", true⟩), by decide, by decide⟩

/-- Adjacent-pair winner flip at position `i` of the newest-first winner
list. -/
def winner_flip (w : List ℕ) (i : ℕ) : Prop := w.getD i 0 ≠ w.getD (i + 1) 0

/-- The winner alternates across at least 3 consecutive adjacent pairs
somewhere in the list (that is, across at least 4 consecutive matches). -/
def has_alternating_run (w : List ℕ) : Prop :=
  ∃ i, i + 3 < w.length ∧ winner_flip w i ∧ winner_flip w (i + 1) ∧ winner_flip w (i + 2)

theorem winner_flip_cons (a : ℕ) (w : List ℕ) (j : ℕ) :
    winner_flip (a :: w) (j + 1) ↔ winner_flip w j := by
  simp [winner_flip]

theorem winner_flip_cons_zero (a b : ℕ) (t : List ℕ) :
    winner_flip (a :: b :: t) 0 ↔ a ≠ b := by
  simp [winner_flip]

theorem has_alternating_run_cons {w : List ℕ} (a : ℕ) :
    has_alternating_run w → has_alternating_run (a :: w) := by
  rintro ⟨i, hlen, h1, h2, h3⟩
  refine ⟨i + 1, ?_, ?_, ?_, ?_⟩
  · simp only [List.length_cons]
    omega
  · exact (winner_flip_cons a w i).mpr h1
  · exact (winner_flip_cons a w (i + 1)).mpr h2
  · exact (winner_flip_cons a w (i + 2)).mpr h3

theorem prefix_run_to_run {w : List ℕ} {k : ℕ} (hk : k + 1 < w.length)
    (hp : ∀ j ≤ k, winner_flip w j) (h3 : 3 ≤ k + 1) : has_alternating_run w :=
  ⟨0, by omega, hp 0 (by omega), hp 1 (by omega), hp 2 (by omega)⟩

theorem win_trading_loop_spec (w : List ℕ) : ∀ c : ℕ,
    (win_trading_loop c w).isSome = true ↔
      ((∃ k, k + 1 < w.length ∧ (∀ j ≤ k, winner_flip w j) ∧ 3 ≤ c + k + 1) ∨
        has_alternating_run w) := by
  induction w with
  | nil =>
    intro c
    constructor
    · intro h
      simp [win_trading_loop] at h
    · rintro (⟨k, hk, _⟩ | ⟨i, hi, _⟩)
      · simp at hk
      · simp at hi
  | cons a w ih =>
    cases w with
    | nil =>
      intro c
      constructor
      · intro h
        simp [win_trading_loop] at h
      · rintro (⟨k, hk, _⟩ | ⟨i, hi, _⟩)
        · simp at hk
        · simp at hi
    | cons b t =>
      intro c
      by_cases hab : a = b
      · have hc0 : win_trading_loop c (a :: b :: t) = win_trading_loop 0 (b :: t) := by
          simp [win_trading_loop, WIN_TRADING_CONSECUTIVE_THRESHOLD, hab]
        rw [hc0, ih 0]
        constructor
        · rintro (⟨k, hk, hp, h3⟩ | hrun)
          · exact Or.inr (has_alternating_run_cons a
              (prefix_run_to_run hk hp (by omega)))
          · exact Or.inr (has_alternating_run_cons a hrun)
        · rintro (⟨k, hk, hp, h3⟩ | hrun)
          · exact absurd ((winner_flip_cons_zero a b t).mp (hp 0 (Nat.zero_le k)))
              (by simpa using hab)
          · rcases hrun with ⟨i, hlen, hf1, hf2, hf3⟩
            cases i with
            | zero =>
              exact absurd ((winner_flip_cons_zero a b t).mp hf1) (by simpa using hab)
            | succ i =>
              refine Or.inr ⟨i, ?_, ?_, ?_, ?_⟩
              · simp only [List.length_cons] at hlen ⊢
                omega
              · exact (winner_flip_cons a (b :: t) i).mp hf1
              · exact (winner_flip_cons a (b :: t) (i + 1)).mp hf2
              · exact (winner_flip_cons a (b :: t) (i + 2)).mp hf3
      · by_cases h3c : 3 ≤ c + 1
        · have hsome : win_trading_loop c (a :: b :: t) = some (c + 1) := by
            simp [win_trading_loop, WIN_TRADING_CONSECUTIVE_THRESHOLD, hab, h3c]
          rw [hsome]
          simp only [Option.isSome_some, true_iff]
          refine Or.inl ⟨0, ?_, ?_, by omega⟩
          · simp only [List.length_cons]
            omega
          · intro j hj
            have hj0 : j = 0 := by omega
            subst hj0
            exact (winner_flip_cons_zero a b t).mpr hab
        · have hc1 : win_trading_loop c (a :: b :: t) = win_trading_loop (c + 1) (b :: t) := by
            simp [win_trading_loop, WIN_TRADING_CONSECUTIVE_THRESHOLD, hab, h3c]
          rw [hc1, ih (c + 1)]
          constructor
          · rintro (⟨k, hk, hp, hk3⟩ | hrun)
            · refine Or.inl ⟨k + 1, ?_, ?_, by omega⟩
              · simp only [List.length_cons] at hk ⊢
                omega
              · intro j hj
                cases j with
                | zero => exact (winner_flip_cons_zero a b t).mpr hab
                | succ j => exact (winner_flip_cons a (b :: t) j).mpr (hp j (by omega))
            · exact Or.inr (has_alternating_run_cons a hrun)
          · rintro (⟨k, hk, hp, hk3⟩ | hrun)
            · cases k with
              | zero => exact absurd hk3 (by omega)
              | succ k =>
                refine Or.inl ⟨k, ?_, ?_, by omega⟩
                · simp only [List.length_cons] at hk ⊢
                  omega
                · intro j hj
                  exact (winner_flip_cons a (b :: t) j).mp (hp (j + 1) (by omega))
            · rcases hrun with ⟨i, hlen, hf1, hf2, hf3⟩
              cases i with
              | zero =>
                refine Or.inl ⟨1, ?_, ?_, by omega⟩
                · simp only [List.length_cons] at hlen ⊢
                  omega
                · intro j hj
                  have : j = 0 ∨ j = 1 := by omega
                  rcases this with hj0 | hj1
                  · subst hj0
                    exact (winner_flip_cons a (b :: t) 0).mp hf2
                  · subst hj1
                    exact (winner_flip_cons a (b :: t) 1).mp hf3
              | succ i =>
                refine Or.inr ⟨i, ?_, ?_, ?_, ?_⟩
                · simp only [List.length_cons] at hlen ⊢
                  omega
                · exact (winner_flip_cons a (b :: t) i).mp hf1
                · exact (winner_flip_cons a (b :: t) (i + 1)).mp hf2
                · exact (winner_flip_cons a (b :: t) (i + 2)).mp hf3

theorem detect_win_trading_true_iff (w : List ℕ) :
    (detect_win_trading w).1 = true ↔ has_alternating_run w := by
  unfold detect_win_trading
  by_cases hlen : w.length < WIN_TRADING_CONSECUTIVE_THRESHOLD
  · rw [if_pos hlen]
    simp only [WIN_TRADING_CONSECUTIVE_THRESHOLD] at hlen
    constructor
    · intro h
      simp at h
    · rintro ⟨i, hi, _⟩
      omega
  · rw [if_neg hlen]
    cases hld : win_trading_loop 0 w with
    | some c =>
      constructor
      · intro _
        have := (win_trading_loop_spec w 0).mp (by rw [hld]; rfl)
        rcases this with ⟨k, hk, hp, h3⟩ | hrun
        · exact prefix_run_to_run hk hp (by omega)
        · exact hrun
      · intro _
        rfl
    | none =>
      constructor
      · intro h
        simp at h
      · intro hrun
        exfalso
        have hsome : (win_trading_loop 0 w).isSome = true :=
          (win_trading_loop_spec w 0).mpr (Or.inr hrun)
        rw [hld] at hsome
        simp at hsome

/-- C7: `detect_win_trading` returns true exactly when the (up to 10,
newest first) head-to-head winner list alternates across at least 3
consecutive adjacent pairs; with fewer than 3 matches it always returns
false; the alternating sequence [1,2,1,2] yields true with the
"4 consecutive" evidence string, while [1,1,1,1] yields false. -/
theorem C7_detect_win_trading_spec :
    (∀ w : List ℕ, (detect_win_trading w).1 = true ↔ has_alternating_run w) ∧
    (∀ w : List ℕ, w.length < 3 → (detect_win_trading w).1 = false) ∧
    detect_win_trading [1, 2, 1, 2] = (true, "Alternating wins detected (4 consecutive)") ∧
    (detect_win_trading [1, 1, 1, 1]).1 = false := by
  refine ⟨detect_win_trading_true_iff, ?_, by decide, by decide⟩
  intro w hw
  unfold detect_win_trading
  rw [if_pos (by simpa [WIN_TRADING_CONSECUTIVE_THRESHOLD] using hw)]

/-- Witness for C7: the theorem applied to a one-element winner list. -/
theorem C7_witness : (detect_win_trading [5]).1 = false :=
  C7_detect_win_trading_spec.2.1 [5] (by decide)

end CricSaga
